import Mathlib

/-!
Verification of the TempLog domain-rule layer: the reading submission guard
(src/unnamed/part_000, `onSubmit` and the zod `formSchema`), the daily status
aggregator (src/src/app/dashboard/layout.tsx, `DashboardPage`), the history
aggregator (src/src/app/(main)/history/page.tsx, `chartData`), the CSV
exporter (src/src/components/dashboard/view-records-dialog.tsx, `exportToCsv`)
and sector deletion (src/src/app/dashboard/layout.tsx, `deleteSector`).

Numbers are modelled as rationals, local wall-clock instants as a calendar
date plus milliseconds since local midnight, and the Firestore collections as
lists of documents; each definition below names the source location it embeds.
-/

namespace TempLog

set_option maxRecDepth 10000

/-- Milliseconds in one day. -/
def msPerDay : Nat := 86400000

/-- A local calendar date, what `format(date, 'yyyy-MM-dd')` identifies. -/
structure Day where
  year : Nat
  month : Nat
  day : Nat
deriving DecidableEq

/-- A numeric code strictly monotone in (year, month, day) for in-range
months (1-12) and days (1-31); stands in for the day part of the epoch time. -/
def Day.code (d : Day) : Nat := (d.year * 12 + d.month) * 32 + d.day

/-- A local wall-clock instant: a calendar date plus milliseconds since that
day's local midnight. -/
structure Timestamp where
  date : Day
  msOfDay : Nat
deriving DecidableEq

/-- The chronological key of an instant (stands in for `Date.getTime()`):
for in-range fields it orders instants exactly as real time does, which is
all the Firestore range filters and the sort comparators use. -/
def Timestamp.key (t : Timestamp) : Nat := t.date.code * msPerDay + t.msOfDay

/-- The shift enumeration `'Manhã' | 'Tarde' | 'Noite'`. -/
inductive Turno
  | manha
  | tarde
  | noite
deriving DecidableEq

/-- A document of the `sectors` collection (interface `Sector`). -/
structure Sector where
  id : String
  name : String
  location : String
  responsible_name : String
  temp_min : ℚ
  temp_max : ℚ
  humidity_min : ℚ
  humidity_max : ℚ
  admin_uid : String
deriving DecidableEq

/-- A document of the `records` collection, as written by `onSubmit`
(src/unnamed/part_000 lines 152-160). -/
structure Record where
  id : String
  sector_id : String
  temperature : ℚ
  humidity : ℚ
  timestamp : Timestamp
  turno : Turno
  observation : String
  is_temp_ok : Bool
  is_humidity_ok : Bool
  admin_uid : String
deriving DecidableEq

/-- One value of an HTML number input as the form library delivers it: the
empty string, unparseable text, or a parsed number. -/
inductive FieldInput
  | empty
  | invalid
  | num (q : ℚ)
deriving DecidableEq

/-- JavaScript `Number()` as `z.coerce.number` applies it: the empty string
coerces to 0, a numeric string to its value, unparseable text to NaN (which
then fails the schema, modelled as `none`). -/
def coerceNum : FieldInput → Option ℚ
  | .empty => some 0
  | .invalid => none
  | .num q => some q

/-- The state of the reading form: the two watched number inputs, the radio
group and the observation text (`values.observation || ''` makes a missing
observation the empty string). -/
structure FormState where
  temperature : FieldInput
  humidity : FieldInput
  turno : Option Turno
  observation : String
deriving DecidableEq

/-- The zod `formSchema` (src/unnamed/part_000 lines 42-47) as the
`zodResolver` runs it before `onSubmit`: both numbers must coerce, humidity
must lie in [0, 100], a shift must be selected, and the observation is at
most 500 characters. -/
def validateForm (f : FormState) : Option (ℚ × ℚ × Turno × String) :=
  match coerceNum f.temperature, coerceNum f.humidity, f.turno with
  | some t, some h, some trn =>
      if 0 ≤ h ∧ h ≤ 100 ∧ f.observation.length ≤ 500 then some (t, h, trn, f.observation)
      else none
  | _, _, _ => none

/-- Line 70 of src/unnamed/part_000: `tempValue !== '' && (Number(tempValue) <
sector.temp_min || Number(tempValue) > sector.temp_max)`. The empty string
short-circuits to false, and NaN compares false on both sides. -/
def isTempOutOfRange (s : Sector) (v : FieldInput) : Bool :=
  match v with
  | .empty => false
  | .invalid => false
  | .num q => decide (q < s.temp_min) || decide (s.temp_max < q)

/-- Line 71 of src/unnamed/part_000, the humidity twin of the line above. -/
def isHumidityOutOfRange (s : Sector) (v : FieldInput) : Bool :=
  match v with
  | .empty => false
  | .invalid => false
  | .num q => decide (q < s.humidity_min) || decide (s.humidity_max < q)

/-- Milliseconds-of-day of the duplicate check's upper bound, `new
Date(y, m, d, 23, 59, 59)` (line 129): the constructor takes no millisecond
argument, so the bound is 23:59:59.000. -/
def dupEndMs : Nat := (23 * 3600 + 59 * 60 + 59) * 1000

/-- Start of the duplicate check's window, `new Date(y, m, d, 0, 0, 0)`. -/
def dupWindowStart (now : Timestamp) : Timestamp := ⟨now.date, 0⟩

/-- End of the duplicate check's window (line 129), 23:59:59.000 local. -/
def dupWindowEnd (now : Timestamp) : Timestamp := ⟨now.date, dupEndMs⟩

/-- The predicate of the duplicate-check query (lines 132-138): same sector
id, same shift, timestamp inside [start-of-day, 23:59:59.000]. -/
def isDupMatch (sid : String) (trn : Turno) (now : Timestamp) (r : Record) : Bool :=
  decide (r.sector_id = sid) && decide (r.turno = trn) &&
    decide ((dupWindowStart now).key ≤ r.timestamp.key) &&
    decide (r.timestamp.key ≤ (dupWindowEnd now).key)

/-- The documents `getDocs(q)` returns for the duplicate-check query. -/
def dupMatches (store : List Record) (sid : String) (trn : Turno) (now : Timestamp) :
    List Record :=
  store.filter (isDupMatch sid trn now)

/-- The `dataToSave` object (lines 152-160): the validated form values, the
sector id, the server timestamp, range flags computed from the raw watched
inputs (not from the coerced numbers), and the owning admin of the sector. -/
def dataToSave (s : Sector) (f : FormState) (t h : ℚ) (trn : Turno) (obs : String)
    (now : Timestamp) (nid : String) : Record :=
  { id := nid
    sector_id := s.id
    temperature := t
    humidity := h
    timestamp := now
    turno := trn
    observation := obs
    is_temp_ok := !(isTempOutOfRange s f.temperature)
    is_humidity_ok := !(isHumidityOutOfRange s f.humidity)
    admin_uid := s.admin_uid }

/-- The observable outcome of one submission attempt. -/
inductive SubmitOutcome
  | invalid
  | duplicate
  | saved
deriving DecidableEq

/-- The submission path (src/unnamed/part_000 lines 122-178) over a store of
record documents: the resolver validates the form first; `onSubmit` then runs
the duplicate-check query and, if it returns nothing, appends the
`dataToSave` document; otherwise it reports the duplicate and writes
nothing. -/
def submitReading (store : List Record) (s : Sector) (f : FormState) (now : Timestamp)
    (nid : String) : List Record × SubmitOutcome :=
  match validateForm f with
  | none => (store, .invalid)
  | some (t, h, trn, obs) =>
      if (dupMatches store s.id trn now).isEmpty then
        (store ++ [dataToSave s f t h trn obs now nid], .saved)
      else (store, .duplicate)

/-- The per-sector shift map of the dashboard status card
(`SectorStatus[...].shifts`). -/
structure ShiftStatus where
  manha : Bool
  tarde : Bool
  noite : Bool
deriving DecidableEq

/-- Reads one shift of the map. -/
def ShiftStatus.get (st : ShiftStatus) : Turno → Bool
  | .manha => st.manha
  | .tarde => st.tarde
  | .noite => st.noite

/-- Writes one shift of the map (`shifts[record.turno] = true`). -/
def ShiftStatus.set (st : ShiftStatus) (t : Turno) (b : Bool) : ShiftStatus :=
  match t with
  | .manha => { st with manha := b }
  | .tarde => { st with tarde := b }
  | .noite => { st with noite := b }

/-- The all-false map every sector starts from (layout.tsx lines 243-249 and
the reset at line 274). -/
def ShiftStatus.init : ShiftStatus := ⟨false, false, false⟩

/-- Membership in the dashboard status window, `setHours(0,0,0,0)` to
`setHours(23,59,59,999)` (layout.tsx lines 255-257): the full local day. -/
def inStatusWindow (now : Timestamp) (ts : Timestamp) : Bool :=
  decide ((Timestamp.mk now.date 0).key ≤ ts.key) &&
    decide (ts.key ≤ (Timestamp.mk now.date (msPerDay - 1)).key)

/-- The documents of the per-sector status query (layout.tsx lines 262-267):
same sector id, timestamp inside the status window of today. -/
def statusRecords (store : List Record) (sid : String) (now : Timestamp) : List Record :=
  store.filter fun r => decide (r.sector_id = sid) && inStatusWindow now r.timestamp

/-- One step of the snapshot loop (layout.tsx lines 277-282):
`newStatus[record.sector_id].shifts[record.turno] = true`. -/
def applyRecord (st : ShiftStatus) (r : Record) : ShiftStatus := st.set r.turno true

/-- The shift map one snapshot computes for one sector (layout.tsx lines
269-286): reset to all false, then mark each returned record's shift. -/
def sectorDailyStatus (store : List Record) (sid : String) (now : Timestamp) : ShiftStatus :=
  (statusRecords store sid now).foldl applyRecord ShiftStatus.init

/-- The dashboard status mapping over all of the admin's sectors. -/
def dailyStatus (sectors : List Sector) (store : List Record) (now : Timestamp) :
    List (String × ShiftStatus) :=
  sectors.map fun s => (s.id, sectorDailyStatus store s.id now)

/-- One insertion into `groupedByDay` (history/page.tsx lines 91-98): find
the entry of the day key, create it if absent (object keys keep insertion
order), and push the temperature and humidity. -/
def addToGroup : List (Day × List ℚ × List ℚ) → Day → ℚ → ℚ → List (Day × List ℚ × List ℚ)
  | [], d, t, h => [(d, ([t], [h]))]
  | (e, ts, hs) :: rest, d, t, h =>
      if e = d then (e, (ts ++ [t], hs ++ [h])) :: rest
      else (e, (ts, hs)) :: addToGroup rest d t h

/-- The `groupedByDay` object: readings grouped by the local calendar day of
their timestamp, in first-occurrence order. -/
def groupByDay (records : List Record) : List (Day × List ℚ × List ℚ) :=
  records.foldl (fun acc r => addToGroup acc r.timestamp.date r.temperature r.humidity) []

/-- Looks up the grouped entry of one day key. -/
def findGroup : List (Day × List ℚ × List ℚ) → Day → Option (List ℚ × List ℚ)
  | [], _ => none
  | (e, v) :: rest, d => if e = d then some v else findGroup rest d

/-- The temperatures of one day's readings, in store order. -/
def tempsOfDay (records : List Record) (d : Day) : List ℚ :=
  (records.filter fun r => decide (r.timestamp.date = d)).map Record.temperature

/-- The humidities of one day's readings, in store order. -/
def humidsOfDay (records : List Record) (d : Day) : List ℚ :=
  (records.filter fun r => decide (r.timestamp.date = d)).map Record.humidity

/-- The arithmetic mean `values.reduce((a,b) => a+b, 0) / values.length`. -/
def mean (l : List ℚ) : ℚ := l.sum / (l.length : ℚ)

/-- JavaScript `parseFloat(x.toFixed(1))`: the value rounded to one decimal
place, ties away from zero. -/
def jsRound10 (q : ℚ) : ℚ :=
  ((if 0 ≤ q then ⌊10 * q + 1 / 2⌋ else -⌊10 * -q + 1 / 2⌋ : ℤ) : ℚ) / 10

/-- Two-digit zero padding of date-fns `dd`, `MM`, `HH`, `mm`, `ss`. -/
def pad2 (n : Nat) : String := if n < 10 then "0" ++ toString n else toString n

/-- The x-axis label `format(new Date(day), 'dd/MM')` (history/page.tsx line
104), shown for the day key itself (a negative UTC offset would shift every
label uniformly by one day, which none of the claims depend on). -/
def ddmmLabel (d : Day) : String := pad2 d.day ++ "/" ++ pad2 d.month

/-- Lexicographic comparison of two character lists by code point. -/
def listCharLe : List Char → List Char → Bool
  | [], _ => true
  | _ :: _, [] => false
  | a :: as, b :: bs => if a = b then listCharLe as bs else decide (a.val < b.val)

/-- String comparison as `a.localeCompare(b) <= 0` behaves on the ASCII
`dd/MM` labels: code-point lexicographic. -/
def strLe (a b : String) : Bool := listCharLe a.data b.data

/-- One element of the `chartData` array: the label and the two rounded
daily means. -/
structure ChartPoint where
  date : String
  temperatura : ℚ
  umidade : ℚ
deriving DecidableEq

/-- The mapping of one grouped day to its chart point (history/page.tsx
lines 100-107). -/
def pointOfGroup : Day × List ℚ × List ℚ → ChartPoint
  | (d, ts, hs) =>
      { date := ddmmLabel d
        temperatura := jsRound10 (mean ts)
        umidade := jsRound10 (mean hs) }

/-- The comparator of `chartData`'s final sort, `a.date.localeCompare(b.date)`
(line 108): it compares the `dd/MM` label strings, not the underlying days. -/
def labelLe (a b : ChartPoint) : Prop := strLe a.date b.date = true

instance : DecidableRel labelLe := fun a b =>
  inferInstanceAs (Decidable (strLe a.date b.date = true))

/-- The `chartData` memo (history/page.tsx lines 86-110): empty input gives
an empty array; otherwise group by day, average, round, label, and sort by
the label string. The sort is modelled by a stable insertion sort, as
JavaScript `Array.prototype.sort` is stable. -/
def chartData (records : List Record) : List ChartPoint :=
  if records = [] then []
  else ((groupByDay records).map pointOfGroup).insertionSort labelLe

/-- JavaScript string conversion of a boolean. -/
def boolToString : Bool → String
  | true => "true"
  | false => "false"

/-- The stored string of each shift value. -/
def turnoToString : Turno → String
  | .manha => "Manhã"
  | .tarde => "Tarde"
  | .noite => "Noite"

/-- Decimal digits of the fraction r/den, most significant first, up to the
given fuel; r is the running remainder. Terminating decimals (all values a
float can hold) need at most the fuel used below. -/
def fracDigitsAux : Nat → Nat → Nat → String
  | 0, _, _ => ""
  | _ + 1, 0, _ => ""
  | fuel + 1, r, den => toString (r * 10 / den) ++ fracDigitsAux fuel (r * 10 % den) den

/-- JavaScript number-to-string conversion for the terminating decimals this
app stores: integer part, then a dot and the fraction digits only when the
value is not an integer (22 prints as `22`, 30.5 as `30.5`). -/
def ratToString (q : ℚ) : String :=
  (if q.num < 0 then "-" else "") ++ toString (q.num.natAbs / q.den) ++
    (if q.num.natAbs % q.den = 0 then ""
     else "." ++ fracDigitsAux 10 (q.num.natAbs % q.den) q.den)

/-- The global replace `r.observation.replace(/"/g, '""')`: every quote
character is doubled. -/
def escQuotes (s : String) : String :=
  ⟨s.data.foldr (fun c acc => if c = '"' then '"' :: '"' :: acc else c :: acc) []⟩

/-- The observation cell of one CSV row (view-records-dialog.tsx line 84):
the escaped text wrapped in quotes. -/
def quoteObservation (obs : String) : String := "\"" ++ escQuotes obs ++ "\""

/-- date-fns `format(date, 'yyyy-MM-dd HH:mm:ss')` of a local instant. -/
def formatTimestampFull (ts : Timestamp) : String :=
  toString ts.date.year ++ "-" ++ pad2 ts.date.month ++ "-" ++ pad2 ts.date.day ++ " " ++
    pad2 (ts.msOfDay / 3600000) ++ ":" ++ pad2 (ts.msOfDay / 60000 % 60) ++ ":" ++
    pad2 (ts.msOfDay / 1000 % 60)

/-- The header cells of the export (view-records-dialog.tsx line 76). -/
def csvHeaders : List String :=
  ["Horário", "Turno", "Temperatura (°C)", "Temp OK", "Umidade (%)", "Umidade OK", "Observações"]

/-- One data row of the export (lines 77-85): the seven cells joined by
commas; only the observation is quoted. -/
def csvRow (r : Record) : String :=
  String.intercalate ","
    [formatTimestampFull r.timestamp, turnoToString r.turno, ratToString r.temperature,
     boolToString r.is_temp_ok, ratToString r.humidity, boolToString r.is_humidity_ok,
     quoteObservation r.observation]

/-- The comparator of the export sort, `a.timestamp.toDate().getTime() -
b.timestamp.toDate().getTime()` (line 77). -/
def tsLe (a b : Record) : Prop := a.timestamp.key ≤ b.timestamp.key

instance : DecidableRel tsLe := fun a b =>
  inferInstanceAs (Decidable (a.timestamp.key ≤ b.timestamp.key))

instance : IsTotal Record tsLe := ⟨fun a b => Nat.le_total a.timestamp.key b.timestamp.key⟩

instance : IsTrans Record tsLe := ⟨fun _ _ _ => Nat.le_trans⟩

/-- The data rows of the export, one per record, in ascending timestamp
order (stable, as JavaScript sort is). -/
def exportRows (records : List Record) : List String :=
  (records.insertionSort tsLe).map csvRow

/-- The CSV text `[headers.join(','), ...rows].join('\n')` (line 87); the
`data:text/csv` prefix and `encodeURI` wrap this text for download and are
not part of the serialized table. -/
def exportToCsv (records : List Record) : String :=
  String.intercalate "\n" (String.intercalate "," csvHeaders :: exportRows records)

/-- A rational literal for 30.5, given in lowest terms so that its numerator
and denominator reduce structurally. -/
def q305 : ℚ := ⟨61, 2, by decide, by decide⟩

/-- A sector with the default bounds (18-25 °C, 40-60 %), used to instantiate
the submission-path theorems. -/
def wSector : Sector :=
  { id := "setor-1", name := "Laboratório", location := "Prédio A",
    responsible_name := "Dr. Silva", temp_min := 18, temp_max := 25,
    humidity_min := 40, humidity_max := 60, admin_uid := "admin-1" }

/-- A valid form: 22 °C, 55 %, morning shift, no observation. -/
def wForm : FormState :=
  { temperature := .num 22, humidity := .num 55, turno := some .manha, observation := "" }

/-- A mid-day instant of 2026-10-05. -/
def wNow : Timestamp := ⟨⟨2026, 10, 5⟩, 10 * 3600000⟩

/-- A form whose temperature sits exactly on the upper bound of `wSector`. -/
def wFormBoundary : FormState :=
  { temperature := .num 25, humidity := .num 55, turno := some .manha, observation := "" }

/-- The sector of the final-second counterexample. -/
def sector7 : Sector :=
  { id := "setor-7", name := "Câmara Fria", location := "Prédio B",
    responsible_name := "Ana", temp_min := 2, temp_max := 8,
    humidity_min := 30, humidity_max := 70, admin_uid := "admin-7" }

/-- An existing morning reading stored at 23:59:59.500 local time, inside
the final second of 2026-10-05 but after the 23:59:59.000 query bound. -/
def r7 : Record :=
  { id := "r-7", sector_id := "setor-7", temperature := 5, humidity := 50,
    timestamp := ⟨⟨2026, 10, 5⟩, 86399500⟩, turno := .manha, observation := "",
    is_temp_ok := true, is_humidity_ok := true, admin_uid := "admin-7" }

/-- The store holding only that final-second reading. -/
def store7 : List Record := [r7]

/-- An existing morning reading stored at 23:59:58.000, inside the query
bound, used to instantiate the amended day-window theorem. -/
def r7b : Record :=
  { id := "r-7b", sector_id := "setor-7", temperature := 5, humidity := 50,
    timestamp := ⟨⟨2026, 10, 5⟩, 86398000⟩, turno := .manha, observation := "",
    is_temp_ok := true, is_humidity_ok := true, admin_uid := "admin-7" }

/-- A second same-day, same-shift submission for `sector7`. -/
def form7 : FormState :=
  { temperature := .num 6, humidity := .num 50, turno := some .manha, observation := "" }

/-- The submission instant of the counterexample, 23:59:59.700 of the same
local day. -/
def now7 : Timestamp := ⟨⟨2026, 10, 5⟩, 86399700⟩

/-- The sector of the empty-input counterexample: temperatures must stay
between 2 and 8 °C. -/
def sector8 : Sector :=
  { id := "setor-8", name := "Freezer", location := "Prédio C",
    responsible_name := "Bia", temp_min := 2, temp_max := 8,
    humidity_min := 30, humidity_max := 70, admin_uid := "admin-8" }

/-- A form whose temperature input was left empty; humidity and shift are
filled in. -/
def form8 : FormState :=
  { temperature := .empty, humidity := .num 50, turno := some .manha, observation := "" }

/-- The submission instant of the empty-input counterexample. -/
def now8 : Timestamp := ⟨⟨2026, 10, 5⟩, 9 * 3600000⟩

/-- Three readings of day 2026-10-05 with temperatures 20, 22, 24 and one of
2026-10-06 with temperature 18, the history-aggregation example. -/
def c4Records : List Record :=
  [{ id := "a", sector_id := "s", temperature := 20, humidity := 50,
     timestamp := ⟨⟨2026, 10, 5⟩, 8 * 3600000⟩, turno := .manha, observation := "",
     is_temp_ok := true, is_humidity_ok := true, admin_uid := "adm" },
   { id := "b", sector_id := "s", temperature := 22, humidity := 60,
     timestamp := ⟨⟨2026, 10, 5⟩, 13 * 3600000⟩, turno := .tarde, observation := "",
     is_temp_ok := true, is_humidity_ok := true, admin_uid := "adm" },
   { id := "c", sector_id := "s", temperature := 24, humidity := 70,
     timestamp := ⟨⟨2026, 10, 5⟩, 20 * 3600000⟩, turno := .noite, observation := "",
     is_temp_ok := true, is_humidity_ok := true, admin_uid := "adm" },
   { id := "d", sector_id := "s", temperature := 18, humidity := 55,
     timestamp := ⟨⟨2026, 10, 6⟩, 9 * 3600000⟩, turno := .manha, observation := "",
     is_temp_ok := true, is_humidity_ok := true, admin_uid := "adm" }]

/-- The two CSV-example readings: `r5A` at 08:00 (morning, 22 °C ok, 55 % ok,
observation with an inner quote) and `r5B` at 14:00 (afternoon, 30.5 °C not
ok, 40 % ok, no observation). -/
def r5A : Record :=
  { id := "r5a", sector_id := "s", temperature := 22, humidity := 55,
    timestamp := ⟨⟨2026, 10, 5⟩, 8 * 3600000⟩, turno := .manha,
    observation := "He said \"hi\"", is_temp_ok := true, is_humidity_ok := true,
    admin_uid := "adm" }

/-- The afternoon CSV-example reading. -/
def r5B : Record :=
  { id := "r5b", sector_id := "s", temperature := q305, humidity := 40,
    timestamp := ⟨⟨2026, 10, 5⟩, 14 * 3600000⟩, turno := .tarde,
    observation := "", is_temp_ok := false, is_humidity_ok := true,
    admin_uid := "adm" }

/-- A reading of 2026-09-30, just before a month boundary. -/
def c6Sep30 : Record :=
  { id := "e", sector_id := "s", temperature := 20, humidity := 50,
    timestamp := ⟨⟨2026, 9, 30⟩, 10 * 3600000⟩, turno := .manha, observation := "",
    is_temp_ok := true, is_humidity_ok := true, admin_uid := "adm" }

/-- A reading of 2026-10-01, the day after `c6Sep30`. -/
def c6Oct1 : Record :=
  { id := "f", sector_id := "s", temperature := 25, humidity := 60,
    timestamp := ⟨⟨2026, 10, 1⟩, 10 * 3600000⟩, turno := .manha, observation := "",
    is_temp_ok := true, is_humidity_ok := true, admin_uid := "adm" }

/-- The two collections the dashboard mutates. -/
structure Store where
  sectors : List Sector
  records : List Record
deriving DecidableEq

/-- The `deleteSector` handler (layout.tsx lines 351-363): delete every
record document the sector-id query returns, then delete the sector
document. -/
def deleteSector (st : Store) (sid : String) : Store :=
  { sectors := st.sectors.filter fun s => decide (¬ s.id = sid)
    records := st.records.filter fun r => decide (¬ r.sector_id = sid) }

/-- The chronological key of an explicit date and millisecond pair. -/
theorem key_mk (d : Day) (ms : Nat) : (Timestamp.mk d ms).key = d.code * msPerDay + ms := rfl

/-- The chronological key unfolded. -/
theorem key_def (t : Timestamp) : t.key = t.date.code * msPerDay + t.msOfDay := rfl

/-- Reading one shift after writing one shift: the written shift reads back
the written value, the others are unchanged. -/
theorem ShiftStatus.get_set (st : ShiftStatus) (t sh : Turno) (b : Bool) :
    (st.set t b).get sh = if t = sh then b else st.get sh := by
  cases t <;> cases sh <;> simp [ShiftStatus.set, ShiftStatus.get]

/-- Every shift of the initial map is false. -/
theorem ShiftStatus.get_init (sh : Turno) : ShiftStatus.init.get sh = false := by
  cases sh <;> rfl

/-- The snapshot loop marks a shift exactly when the initial map already had
it or some processed record carries it. -/
theorem get_foldl_applyRecord (l : List Record) (init : ShiftStatus) (sh : Turno) :
    (l.foldl applyRecord init).get sh =
      (init.get sh || l.any fun r => decide (r.turno = sh)) := by
  induction l generalizing init with
  | nil => simp
  | cons r rs ih =>
      rw [List.foldl_cons, ih, List.any_cons]
      rw [applyRecord, ShiftStatus.get_set]
      by_cases hrt : r.turno = sh
      · simp [hrt]
      · simp [hrt]

/-- With a validated form, the saved outcome forces the store to have grown
by exactly the dataToSave document. -/
theorem submit_saved_eq (store : List Record) (s : Sector) (f : FormState)
    (t h : ℚ) (trn : Turno) (obs : String) (now : Timestamp) (nid : String)
    (hval : validateForm f = some (t, h, trn, obs))
    (hsav : (submitReading store s f now nid).2 = SubmitOutcome.saved) :
    (submitReading store s f now nid).1 = store ++ [dataToSave s f t h trn obs now nid] := by
  cases hd : (dupMatches store s.id trn now).isEmpty with
  | true => simp [submitReading, hval, hd]
  | false =>
      exfalso
      simp [submitReading, hval, hd] at hsav

/-- When the duplicate-check query returns something, the submission ends in
the duplicate outcome with the store unchanged. -/
theorem submit_of_dup_ne (store : List Record) (s : Sector) (f : FormState)
    (t h : ℚ) (trn : Turno) (obs : String) (now : Timestamp) (nid : String)
    (hval : validateForm f = some (t, h, trn, obs))
    (hd : dupMatches store s.id trn now ≠ []) :
    submitReading store s f now nid = (store, SubmitOutcome.duplicate) := by
  have hd2 : (dupMatches store s.id trn now).isEmpty = false := by
    cases hc : dupMatches store s.id trn now with
    | nil => exact absurd hc hd
    | cons a l => rfl
  simp [submitReading, hval, hd2]

/-- When the duplicate-check query returns nothing, the submission appends
the dataToSave document and ends in the saved outcome. -/
theorem submit_of_dup_nil (store : List Record) (s : Sector) (f : FormState)
    (t h : ℚ) (trn : Turno) (obs : String) (now : Timestamp) (nid : String)
    (hval : validateForm f = some (t, h, trn, obs))
    (hd : dupMatches store s.id trn now = []) :
    submitReading store s f now nid =
      (store ++ [dataToSave s f t h trn obs now nid], SubmitOutcome.saved) := by
  have hd2 : (dupMatches store s.id trn now).isEmpty = true := by rw [hd]; rfl
  simp [submitReading, hval, hd2]

/-- A validated form whose temperature input is the empty string carries the
coerced temperature 0. -/
theorem validateForm_empty_temperature (f : FormState) (t h : ℚ) (trn : Turno) (obs : String)
    (hval : validateForm f = some (t, h, trn, obs)) (hemp : f.temperature = FieldInput.empty) :
    t = 0 := by
  unfold validateForm at hval
  rw [hemp] at hval
  cases hch : coerceNum f.humidity with
  | none =>
      rw [hch] at hval
      cases htr : f.turno with
      | none => rw [htr] at hval; exact absurd hval (by simp [coerceNum])
      | some trn1 => rw [htr] at hval; exact absurd hval (by simp [coerceNum])
  | some h1 =>
      rw [hch] at hval
      cases htr : f.turno with
      | none => rw [htr] at hval; exact absurd hval (by simp [coerceNum])
      | some trn1 =>
          rw [htr] at hval
          simp only [coerceNum] at hval
          split at hval
          · simp only [Option.some.injEq, Prod.mk.injEq] at hval
            exact hval.1.symm
          · exact absurd hval (by simp)

/-- A validated form whose humidity input is the empty string carries the
coerced humidity 0. -/
theorem validateForm_empty_humidity (f : FormState) (t h : ℚ) (trn : Turno) (obs : String)
    (hval : validateForm f = some (t, h, trn, obs)) (hemp : f.humidity = FieldInput.empty) :
    h = 0 := by
  unfold validateForm at hval
  rw [hemp] at hval
  cases hct : coerceNum f.temperature with
  | none =>
      rw [hct] at hval
      cases htr : f.turno with
      | none => rw [htr] at hval; exact absurd hval (by simp [coerceNum])
      | some trn1 => rw [htr] at hval; exact absurd hval (by simp [coerceNum])
  | some t1 =>
      rw [hct] at hval
      cases htr : f.turno with
      | none => rw [htr] at hval; exact absurd hval (by simp [coerceNum])
      | some trn1 =>
          rw [htr] at hval
          simp only [coerceNum] at hval
          split at hval
          · simp only [Option.some.injEq, Prod.mk.injEq] at hval
            exact hval.2.1.symm
          · exact absurd hval (by simp)

/-- C1: with a validated form, the submission is rejected with the duplicate
outcome and the store is unchanged exactly when the pre-insert existence
check finds a same-sector, same-shift reading inside the current-day window;
when the check finds none, the dataToSave document is appended. -/
theorem claim1_duplicate_guard (store : List Record) (s : Sector) (f : FormState)
    (t h : ℚ) (trn : Turno) (obs : String) (now : Timestamp) (nid : String)
    (hval : validateForm f = some (t, h, trn, obs)) :
    (dupMatches store s.id trn now ≠ [] →
      submitReading store s f now nid = (store, SubmitOutcome.duplicate)) ∧
    (dupMatches store s.id trn now = [] →
      submitReading store s f now nid =
        (store ++ [dataToSave s f t h trn obs now nid], SubmitOutcome.saved)) := by
  exact ⟨submit_of_dup_ne store s f t h trn obs now nid hval,
    submit_of_dup_nil store s f t h trn obs now nid hval⟩

/-- Witness for C1 at the default-bounds sector, a valid morning form and an
empty store. -/
theorem claim1_duplicate_guard_witness :
    (dupMatches [] wSector.id .manha wNow ≠ [] →
      submitReading [] wSector wForm wNow "r1" = ([], SubmitOutcome.duplicate)) ∧
    (dupMatches [] wSector.id .manha wNow = [] →
      submitReading [] wSector wForm wNow "r1" =
        ([] ++ [dataToSave wSector wForm 22 55 .manha "" wNow "r1"], SubmitOutcome.saved)) :=
  claim1_duplicate_guard [] wSector wForm 22 55 .manha "" wNow "r1" (by decide)

/-- C2: for an accepted numeric reading under well-formed bounds, the
persisted flags are the closed-interval bounds checks, computed
independently; a reading with only the temperature out of bounds gets
exactly one false flag. -/
theorem claim2_range_flags (store : List Record) (s : Sector) (f : FormState)
    (t h : ℚ) (trn : Turno) (obs : String) (now : Timestamp) (nid : String)
    (_hb1 : s.temp_min < s.temp_max) (_hb2 : s.humidity_min < s.humidity_max)
    (ht : f.temperature = FieldInput.num t) (hh : f.humidity = FieldInput.num h)
    (hval : validateForm f = some (t, h, trn, obs))
    (hsav : (submitReading store s f now nid).2 = SubmitOutcome.saved) :
    (submitReading store s f now nid).1 = store ++ [dataToSave s f t h trn obs now nid] ∧
    ((dataToSave s f t h trn obs now nid).is_temp_ok = true ↔
      s.temp_min ≤ t ∧ t ≤ s.temp_max) ∧
    ((dataToSave s f t h trn obs now nid).is_humidity_ok = true ↔
      s.humidity_min ≤ h ∧ h ≤ s.humidity_max) ∧
    ((t < s.temp_min ∨ s.temp_max < t) → s.humidity_min ≤ h → h ≤ s.humidity_max →
      (dataToSave s f t h trn obs now nid).is_temp_ok = false ∧
      (dataToSave s f t h trn obs now nid).is_humidity_ok = true) := by
  have hflag1 : (dataToSave s f t h trn obs now nid).is_temp_ok = true ↔
      s.temp_min ≤ t ∧ t ≤ s.temp_max := by
    simp [dataToSave, isTempOutOfRange, ht, not_lt]
  have hflag2 : (dataToSave s f t h trn obs now nid).is_humidity_ok = true ↔
      s.humidity_min ≤ h ∧ h ≤ s.humidity_max := by
    simp [dataToSave, isHumidityOutOfRange, hh, not_lt]
  refine ⟨submit_saved_eq store s f t h trn obs now nid hval hsav, hflag1, hflag2, ?_⟩
  intro hout hh1 hh2
  constructor
  · have : ¬ ((dataToSave s f t h trn obs now nid).is_temp_ok = true) := by
      rw [hflag1]
      rcases hout with hlt | hgt
      · exact fun hc => absurd hc.1 (not_le.mpr hlt)
      · exact fun hc => absurd hc.2 (not_le.mpr hgt)
    exact Bool.not_eq_true _ ▸ this
  · exact hflag2.mpr ⟨hh1, hh2⟩

/-- Witness for C2 at the default-bounds sector and a form whose temperature
sits exactly on the upper bound: the boundary value is flagged OK. -/
theorem claim2_range_flags_witness :
    (submitReading [] wSector wFormBoundary wNow "r1").1 =
      [] ++ [dataToSave wSector wFormBoundary 25 55 .manha "" wNow "r1"] ∧
    ((dataToSave wSector wFormBoundary 25 55 .manha "" wNow "r1").is_temp_ok = true ↔
      wSector.temp_min ≤ 25 ∧ (25 : ℚ) ≤ wSector.temp_max) ∧
    ((dataToSave wSector wFormBoundary 25 55 .manha "" wNow "r1").is_humidity_ok = true ↔
      wSector.humidity_min ≤ 55 ∧ (55 : ℚ) ≤ wSector.humidity_max) ∧
    (((25 : ℚ) < wSector.temp_min ∨ wSector.temp_max < 25) →
      wSector.humidity_min ≤ 55 → (55 : ℚ) ≤ wSector.humidity_max →
      (dataToSave wSector wFormBoundary 25 55 .manha "" wNow "r1").is_temp_ok = false ∧
      (dataToSave wSector wFormBoundary 25 55 .manha "" wNow "r1").is_humidity_ok = true) :=
  claim2_range_flags [] wSector wFormBoundary 25 55 .manha "" wNow "r1"
    (by decide) (by decide) (by decide) (by decide) (by decide) (by decide)

/-- C10: every document the submission path persists carries the admin_uid
of the sector it references, read at submission time. -/
theorem claim10_admin_uid (store : List Record) (s : Sector) (f : FormState)
    (t h : ℚ) (trn : Turno) (obs : String) (now : Timestamp) (nid : String)
    (hval : validateForm f = some (t, h, trn, obs))
    (hsav : (submitReading store s f now nid).2 = SubmitOutcome.saved) :
    (submitReading store s f now nid).1 = store ++ [dataToSave s f t h trn obs now nid] ∧
    (dataToSave s f t h trn obs now nid).admin_uid = s.admin_uid :=
  ⟨submit_saved_eq store s f t h trn obs now nid hval hsav, rfl⟩

/-- Witness for C10 at the default sector over an empty store. -/
theorem claim10_admin_uid_witness :
    (submitReading [] wSector wForm wNow "r1").1 =
      [] ++ [dataToSave wSector wForm 22 55 .manha "" wNow "r1"] ∧
    (dataToSave wSector wForm 22 55 .manha "" wNow "r1").admin_uid = wSector.admin_uid :=
  claim10_admin_uid [] wSector wForm 22 55 .manha "" wNow "r1" (by decide) (by decide)

/-- C7 counterexample: a same-sector, same-shift reading stored at
23:59:59.500 of the same local day is missed by the duplicate check, whose
upper bound is 23:59:59.000, and the second submission is accepted — the
claim says it must be rejected. -/
theorem claim7_day_window_counterexample :
    r7 ∈ store7 ∧ r7.sector_id = sector7.id ∧ r7.turno = Turno.manha ∧
    r7.timestamp.date = now7.date ∧
    validateForm form7 = some (6, 50, Turno.manha, "") ∧
    submitReading store7 sector7 form7 now7 "novo" =
      (store7 ++ [dataToSave sector7 form7 6 50 .manha "" now7 "novo"], SubmitOutcome.saved) := by
  decide

/-- C7 amended: the duplicate check covers [start-of-local-day, 23:59:59.000]
of the submission moment; every existing same-sector, same-shift reading
whose millisecond-of-day is at most that bound is found and the submission
is rejected with no write. -/
theorem claim7_day_window_amended (store : List Record) (s : Sector) (f : FormState)
    (t h : ℚ) (trn : Turno) (obs : String) (now : Timestamp) (nid : String) (r : Record)
    (hval : validateForm f = some (t, h, trn, obs))
    (hr : r ∈ store) (hsid : r.sector_id = s.id) (htrn : r.turno = trn)
    (hday : r.timestamp.date = now.date) (hms : r.timestamp.msOfDay ≤ dupEndMs) :
    submitReading store s f now nid = (store, SubmitOutcome.duplicate) := by
  have hmatch : isDupMatch s.id trn now r = true := by
    rw [isDupMatch]
    simp only [Bool.and_eq_true, decide_eq_true_eq]
    refine ⟨⟨⟨hsid, htrn⟩, ?_⟩, ?_⟩
    · simp only [dupWindowStart, key_def, hday]
      omega
    · simp only [dupWindowEnd, key_def, hday]
      omega
  have hne : dupMatches store s.id trn now ≠ [] := by
    intro hnil
    have : r ∈ dupMatches store s.id trn now := List.mem_filter.mpr ⟨hr, hmatch⟩
    rw [hnil] at this
    exact absurd this (List.not_mem_nil r)
  exact submit_of_dup_ne store s f t h trn obs now nid hval hne

/-- Witness for the amended C7: a stored 23:59:58.000 reading of the same
day and shift makes a second submission fail as a duplicate. -/
theorem claim7_day_window_amended_witness :
    submitReading [r7b] sector7 form7 now7 "novo" = ([r7b], SubmitOutcome.duplicate) :=
  claim7_day_window_amended [r7b] sector7 form7 6 50 .manha "" now7 "novo" r7b
    (by decide) (by decide) (by decide) (by decide) (by decide) (by decide)

/-- C8 counterexample: a form whose temperature input is empty passes
validation (the empty string coerces to 0), is persisted with temperature 0
below the sector minimum of 2, and its temperature flag is stored as OK —
the claim says no ok or violating classification may be produced or
persisted for an empty input. -/
theorem claim8_empty_input_counterexample :
    form8.temperature = FieldInput.empty ∧
    validateForm form8 = some (0, 50, Turno.manha, "") ∧
    submitReading [] sector8 form8 now8 "r1" =
      ([dataToSave sector8 form8 0 50 .manha "" now8 "r1"], SubmitOutcome.saved) ∧
    (dataToSave sector8 form8 0 50 .manha "" now8 "r1").is_temp_ok = true ∧
    (dataToSave sector8 form8 0 50 .manha "" now8 "r1").temperature < sector8.temp_min := by
  decide

/-- C8 amended: an empty field never shows the out-of-range indicator, but
it does not block submission: the empty string coerces to 0, validation can
succeed, and the accepted reading persists that field as 0 with its ok flag
true. -/
theorem claim8_empty_input_amended (store : List Record) (s : Sector) (f : FormState)
    (t h : ℚ) (trn : Turno) (obs : String) (now : Timestamp) (nid : String)
    (hval : validateForm f = some (t, h, trn, obs)) :
    (f.temperature = FieldInput.empty →
      isTempOutOfRange s f.temperature = false ∧ t = 0 ∧
      (dataToSave s f t h trn obs now nid).is_temp_ok = true) ∧
    (f.humidity = FieldInput.empty →
      isHumidityOutOfRange s f.humidity = false ∧ h = 0 ∧
      (dataToSave s f t h trn obs now nid).is_humidity_ok = true) ∧
    ((submitReading store s f now nid).2 = SubmitOutcome.saved →
      (submitReading store s f now nid).1 = store ++ [dataToSave s f t h trn obs now nid]) := by
  refine ⟨?_, ?_, submit_saved_eq store s f t h trn obs now nid hval⟩
  · intro hemp
    refine ⟨by rw [hemp]; rfl, validateForm_empty_temperature f t h trn obs hval hemp, ?_⟩
    simp [dataToSave, isTempOutOfRange, hemp]
  · intro hemp
    refine ⟨by rw [hemp]; rfl, validateForm_empty_humidity f t h trn obs hval hemp, ?_⟩
    simp [dataToSave, isHumidityOutOfRange, hemp]

/-- Witness for the amended C8 at the empty-temperature form: no indicator,
coerced 0, flag stored true, document appended on save. -/
theorem claim8_empty_input_amended_witness :
    (form8.temperature = FieldInput.empty →
      isTempOutOfRange sector8 form8.temperature = false ∧ (0 : ℚ) = 0 ∧
      (dataToSave sector8 form8 0 50 .manha "" now8 "r1").is_temp_ok = true) ∧
    (form8.humidity = FieldInput.empty →
      isHumidityOutOfRange sector8 form8.humidity = false ∧ (50 : ℚ) = 0 ∧
      (dataToSave sector8 form8 0 50 .manha "" now8 "r1").is_humidity_ok = true) ∧
    ((submitReading [] sector8 form8 now8 "r1").2 = SubmitOutcome.saved →
      (submitReading [] sector8 form8 now8 "r1").1 =
        [] ++ [dataToSave sector8 form8 0 50 .manha "" now8 "r1"]) :=
  claim8_empty_input_amended [] sector8 form8 0 50 .manha "" now8 "r1" (by decide)

/-- C3: the dashboard daily status starts every shift false; a shift of a
sector is marked true exactly when some reading of that sector and shift
lies in the current-day window (further readings for the same shift keep it
true); a sector with no reading today keeps the all-false map; and the
status mapping pairs every sector id with its own per-sector status. -/
theorem claim3_daily_status (sectors : List Sector) (store : List Record)
    (sid : String) (now : Timestamp) (sh : Turno) :
    ShiftStatus.init.get sh = false ∧
    ((sectorDailyStatus store sid now).get sh = true ↔
      ∃ r ∈ store, r.sector_id = sid ∧ r.turno = sh ∧ inStatusWindow now r.timestamp = true) ∧
    ((∀ r ∈ store, r.sector_id = sid → inStatusWindow now r.timestamp = false) →
      sectorDailyStatus store sid now = ShiftStatus.init) ∧
    (dailyStatus sectors store now).map Prod.fst = sectors.map Sector.id ∧
    (∀ p ∈ dailyStatus sectors store now, p.2 = sectorDailyStatus store p.1 now) := by
  refine ⟨ShiftStatus.get_init sh, ?_, ?_, ?_, ?_⟩
  · rw [sectorDailyStatus, get_foldl_applyRecord, ShiftStatus.get_init, Bool.false_or,
      List.any_eq_true]
    constructor
    · rintro ⟨r, hrmem, hrt⟩
      rw [statusRecords, List.mem_filter, Bool.and_eq_true, decide_eq_true_eq] at hrmem
      exact ⟨r, hrmem.1, hrmem.2.1, by simpa using hrt, hrmem.2.2⟩
    · rintro ⟨r, hrstore, hsid2, htrn2, hwin⟩
      refine ⟨r, ?_, by simpa using htrn2⟩
      rw [statusRecords, List.mem_filter, Bool.and_eq_true, decide_eq_true_eq]
      exact ⟨hrstore, hsid2, hwin⟩
  · intro hnone
    have hnil : statusRecords store sid now = [] := by
      rw [statusRecords, List.filter_eq_nil_iff]
      intro r hr
      by_cases hs2 : r.sector_id = sid
      · simp [hs2, hnone r hr hs2]
      · simp [hs2]
    rw [sectorDailyStatus, hnil]
    rfl
  · simp [dailyStatus, List.map_map, Function.comp]
  · intro p hp
    rw [dailyStatus, List.mem_map] at hp
    obtain ⟨s, _, rfl⟩ := hp
    rfl

/-- C9: after deleting a sector, the sector-id query over records and the one
over sectors both return nothing; exactly the readings and sectors with a
different id survive. -/
theorem claim9_delete_cascade (st : Store) (sid : String) :
    ((deleteSector st sid).records.filter fun r => decide (r.sector_id = sid)) = [] ∧
    ((deleteSector st sid).sectors.filter fun s => decide (s.id = sid)) = [] ∧
    (∀ r : Record, r ∈ (deleteSector st sid).records ↔ r ∈ st.records ∧ r.sector_id ≠ sid) ∧
    (∀ s : Sector, s ∈ (deleteSector st sid).sectors ↔ s ∈ st.sectors ∧ s.id ≠ sid) := by
  refine ⟨?_, ?_, ?_, ?_⟩
  · simp [deleteSector, List.filter_filter]
  · simp [deleteSector, List.filter_filter]
  · intro r
    simp [deleteSector, List.mem_filter]
  · intro s
    simp [deleteSector, List.mem_filter]

/-- One insertion into the grouped list, looked up at any day key: the
inserted day gains the pushed values (a fresh entry if absent), every other
day is untouched. -/
theorem findGroup_addToGroup (acc : List (Day × List ℚ × List ℚ)) (d k : Day) (t h : ℚ) :
    findGroup (addToGroup acc d t h) k =
      if k = d then
        some (match findGroup acc k with
              | none => ([t], [h])
              | some (ts, hs) => (ts ++ [t], hs ++ [h]))
      else findGroup acc k := by
  induction acc with
  | nil =>
      by_cases hk : k = d
      · subst hk
        simp [addToGroup, findGroup]
      · have hdk : ¬ d = k := fun hh => hk hh.symm
        simp [addToGroup, findGroup, hk, hdk]
  | cons p rest ih =>
      obtain ⟨d1, ts1, hs1⟩ := p
      by_cases hd1 : d1 = d
      · subst hd1
        by_cases hk : k = d1
        · subst hk
          simp [addToGroup, findGroup]
        · have hdk : ¬ d1 = k := fun hh => hk hh.symm
          simp [addToGroup, findGroup, hk, hdk]
      · by_cases hk1 : d1 = k
        · subst hk1
          simp [addToGroup, findGroup, hd1]
        · simp [addToGroup, findGroup, hd1, hk1, ih]

/-- One insertion into the grouped list keeps the key order and appends the
day key at the end only when it is new. -/
theorem keys_addToGroup (acc : List (Day × List ℚ × List ℚ)) (d : Day) (t h : ℚ) :
    (addToGroup acc d t h).map Prod.fst =
      if d ∈ acc.map Prod.fst then acc.map Prod.fst else acc.map Prod.fst ++ [d] := by
  induction acc with
  | nil => simp [addToGroup]
  | cons p rest ih =>
      obtain ⟨d1, ts1, hs1⟩ := p
      by_cases hd1 : d1 = d
      · subst hd1
        simp [addToGroup]
      · have hne : ¬ d = d1 := fun hh => hd1 hh.symm
        simp only [addToGroup, if_neg hd1, List.map_cons, ih, List.mem_cons, hne, false_or]
        by_cases hmem : d ∈ rest.map Prod.fst <;> simp [hmem]

/-- Grouping a store with one more reading inserts that reading into the
grouped list. -/
theorem groupByDay_append (l : List Record) (r : Record) :
    groupByDay (l ++ [r]) =
      addToGroup (groupByDay l) r.timestamp.date r.temperature r.humidity := by
  simp [groupByDay, List.foldl_append]

/-- The grouped list never repeats a day key. -/
theorem keys_groupByDay_nodup (records : List Record) :
    ((groupByDay records).map Prod.fst).Nodup := by
  induction records using List.reverseRecOn with
  | nil => simp [groupByDay]
  | append_singleton l r ih =>
      rw [groupByDay_append, keys_addToGroup]
      by_cases hmem : r.timestamp.date ∈ (groupByDay l).map Prod.fst
      · simpa [hmem] using ih
      · rw [if_neg hmem]
        exact List.Nodup.append ih (List.nodup_singleton _)
          (List.disjoint_singleton.mpr hmem)

/-- A day key is absent from the grouped list exactly when its lookup is
empty. -/
theorem findGroup_eq_none (g : List (Day × List ℚ × List ℚ)) (d : Day) :
    findGroup g d = none ↔ d ∉ g.map Prod.fst := by
  induction g with
  | nil => simp [findGroup]
  | cons p rest ih =>
      obtain ⟨d1, v1⟩ := p
      by_cases he : d1 = d
      · simp [findGroup, he]
      · have hne : ¬ d = d1 := fun hh => he hh.symm
        simp [findGroup, he, hne, ih]

/-- In a grouped list with pairwise distinct keys, every member is found by
the lookup of its own key. -/
theorem findGroup_of_mem (g : List (Day × List ℚ × List ℚ)) (d : Day) (v : List ℚ × List ℚ)
    (hnd : (g.map Prod.fst).Nodup) (hmem : (d, v) ∈ g) : findGroup g d = some v := by
  induction g with
  | nil => exact absurd hmem (List.not_mem_nil _)
  | cons p rest ih =>
      obtain ⟨d1, v1⟩ := p
      rw [List.map_cons, List.nodup_cons] at hnd
      rcases List.mem_cons.mp hmem with hhead | htail
      · have hd : d = d1 := congrArg Prod.fst hhead
        have hv : v = v1 := congrArg Prod.snd hhead
        simp only [findGroup, if_pos hd.symm, hv]
      · have hd1 : ¬ d1 = d := by
          intro hh
          apply hnd.1
          rw [hh]
          exact List.mem_map.mpr ⟨(d, v), htail, rfl⟩
        simp only [findGroup, if_neg hd1]
        exact ih hnd.2 htail

/-- The grouped entry of a day holds exactly that day's temperatures and
humidities, in store order; days with no reading have no entry. -/
theorem findGroup_groupByDay (records : List Record) (d : Day) :
    findGroup (groupByDay records) d =
      if (records.filter fun r => decide (r.timestamp.date = d)) = [] then none
      else some (tempsOfDay records d, humidsOfDay records d) := by
  induction records using List.reverseRecOn with
  | nil => simp [groupByDay, findGroup]
  | append_singleton l r ih =>
      rw [groupByDay_append, findGroup_addToGroup, ih]
      by_cases hd : d = r.timestamp.date
      · have hd2 : decide (r.timestamp.date = d) = true := by
          simp [hd]
        have hfilter : ((l ++ [r]).filter fun x => decide (x.timestamp.date = d)) =
            (l.filter fun x => decide (x.timestamp.date = d)) ++ [r] := by
          rw [List.filter_append]
          simp [hd2]
        have htemps : tempsOfDay (l ++ [r]) d = tempsOfDay l d ++ [r.temperature] := by
          rw [tempsOfDay, hfilter, List.map_append]
          rfl
        have hhumids : humidsOfDay (l ++ [r]) d = humidsOfDay l d ++ [r.humidity] := by
          rw [humidsOfDay, hfilter, List.map_append]
          rfl
        rw [if_pos hd, hfilter, htemps, hhumids]
        by_cases hnil : (l.filter fun x => decide (x.timestamp.date = d)) = []
        · have h1 : tempsOfDay l d = [] := by simp [tempsOfDay, hnil]
          have h2 : humidsOfDay l d = [] := by simp [humidsOfDay, hnil]
          simp [hnil, h1, h2]
        · simp [hnil]
      · have hd2 : decide (r.timestamp.date = d) = false := by
          simp
          exact fun hh => hd hh.symm
        have hfilter : ((l ++ [r]).filter fun x => decide (x.timestamp.date = d)) =
            l.filter fun x => decide (x.timestamp.date = d) := by
          rw [List.filter_append]
          simp [hd2]
        have htemps : tempsOfDay (l ++ [r]) d = tempsOfDay l d := by
          rw [tempsOfDay, hfilter]
          rfl
        have hhumids : humidsOfDay (l ++ [r]) d = humidsOfDay l d := by
          rw [humidsOfDay, hfilter]
          rfl
        rw [if_neg hd, hfilter, htemps, hhumids]

/-- C4: the history aggregator groups by the local calendar day of the
timestamp: day keys are pairwise distinct, a key is present exactly when
some reading falls on that day, the entry of a day collects exactly that
day's temperatures and humidities in order, every emitted point carries the
rounded arithmetic means of the temperatures and humidities of one day that
has a reading, the chart emits one point per grouped day, and on 3 readings
of day D (20, 22, 24 °C) plus 1 of day D+1 (18 °C) the output is exactly
the two points with means 22.0 and 18.0. -/
theorem claim4_history_daily_means :
    (∀ records : List Record, ((groupByDay records).map Prod.fst).Nodup) ∧
    (∀ (records : List Record) (d : Day),
      d ∈ (groupByDay records).map Prod.fst ↔ ∃ r ∈ records, r.timestamp.date = d) ∧
    (∀ (records : List Record) (d : Day),
      findGroup (groupByDay records) d =
        if (records.filter fun r => decide (r.timestamp.date = d)) = [] then none
        else some (tempsOfDay records d, humidsOfDay records d)) ∧
    (∀ (records : List Record) (p : ChartPoint), p ∈ chartData records →
      ∃ d : Day, (∃ r ∈ records, r.timestamp.date = d) ∧
        p = { date := ddmmLabel d,
              temperatura := jsRound10 (mean (tempsOfDay records d)),
              umidade := jsRound10 (mean (humidsOfDay records d)) }) ∧
    (∀ records : List Record, (chartData records).length = (groupByDay records).length) ∧
    chartData c4Records =
      [{ date := "05/10", temperatura := 22, umidade := 60 },
       { date := "06/10", temperatura := 18, umidade := 55 }] := by
  refine ⟨keys_groupByDay_nodup, ?_, findGroup_groupByDay, ?_, ?_, ?_⟩
  · intro records d
    constructor
    · intro hmem
      by_contra hex
      have hnil : (records.filter fun r => decide (r.timestamp.date = d)) = [] := by
        rw [List.filter_eq_nil_iff]
        intro r hr
        simp only [decide_eq_true_eq]
        exact fun hrd => hex ⟨r, hr, hrd⟩
      have hnone : findGroup (groupByDay records) d = none := by
        rw [findGroup_groupByDay, if_pos hnil]
      exact (findGroup_eq_none _ _).mp hnone hmem
    · rintro ⟨r, hr, hrd⟩
      by_contra hmem
      have hnone : findGroup (groupByDay records) d = none :=
        (findGroup_eq_none _ _).mpr hmem
      rw [findGroup_groupByDay] at hnone
      by_cases hnil : (records.filter fun x => decide (x.timestamp.date = d)) = []
      · have hmemf : r ∈ records.filter fun x => decide (x.timestamp.date = d) :=
          List.mem_filter.mpr ⟨hr, by simpa using hrd⟩
        rw [hnil] at hmemf
        exact absurd hmemf (List.not_mem_nil r)
      · rw [if_neg hnil] at hnone
        exact absurd hnone (by simp)
  · intro records p hp
    rw [chartData] at hp
    by_cases hnil : records = []
    · rw [if_pos hnil] at hp
      exact absurd hp (List.not_mem_nil p)
    · rw [if_neg hnil] at hp
      have hp2 : p ∈ (groupByDay records).map pointOfGroup :=
        ((List.perm_insertionSort labelLe _).mem_iff).mp hp
      obtain ⟨g, hgmem, rfl⟩ := List.mem_map.mp hp2
      obtain ⟨d, v⟩ := g
      have hfind : findGroup (groupByDay records) d = some v :=
        findGroup_of_mem _ d v (keys_groupByDay_nodup records) hgmem
      rw [findGroup_groupByDay] at hfind
      by_cases hfil : (records.filter fun r => decide (r.timestamp.date = d)) = []
      · rw [if_pos hfil] at hfind
        exact absurd hfind (by simp)
      · rw [if_neg hfil] at hfind
        have hv : v = (tempsOfDay records d, humidsOfDay records d) := by
          injection hfind with hh
          exact hh.symm
        refine ⟨d, ?_, ?_⟩
        · rcases hx : records.filter (fun r => decide (r.timestamp.date = d)) with _ | ⟨r0, rest0⟩
          · exact absurd hx hfil
          · have hr0 : r0 ∈ records.filter fun r => decide (r.timestamp.date = d) := by
              rw [hx]
              exact List.mem_cons_self _ _
            rw [List.mem_filter, decide_eq_true_eq] at hr0
            exact ⟨r0, hr0.1, hr0.2⟩
        · rw [hv]
          rfl
  · intro records
    rw [chartData]
    by_cases hnil : records = []
    · rw [if_pos hnil, hnil]
      rfl
    · rw [if_neg hnil]
      rw [(List.perm_insertionSort labelLe _).length_eq, List.length_map]
  · have hg : groupByDay c4Records =
        [(⟨2026, 10, 5⟩, ([20, 22, 24], [50, 60, 70])), (⟨2026, 10, 6⟩, ([18], [55]))] := by
      decide
    have ht1 : jsRound10 (mean [(20 : ℚ), 22, 24]) = 22 := by norm_num [mean, jsRound10]
    have hh1 : jsRound10 (mean [(50 : ℚ), 60, 70]) = 60 := by norm_num [mean, jsRound10]
    have ht2 : jsRound10 (mean [(18 : ℚ)]) = 18 := by norm_num [mean, jsRound10]
    have hh2 : jsRound10 (mean [(55 : ℚ)]) = 55 := by norm_num [mean, jsRound10]
    rw [chartData, if_neg (by decide), hg]
    simp only [List.map_cons, List.map_nil, pointOfGroup]
    rw [ht1, hh1, ht2, hh2]
    decide

/-- C5: the CSV export emits exactly one data row per reading; the rows are
the input readings sorted ascending by timestamp; and on the two example
readings, given in the order R2, R1, the full text is the header line plus
the two rows in chronological order R1, R2, with the quote inside the first
observation doubled and the absent observation rendered as a quoted empty
string while every other cell is unquoted. -/
theorem claim5_csv_export :
    (∀ records : List Record, (exportRows records).length = records.length) ∧
    (∀ records : List Record, (records.insertionSort tsLe).Perm records) ∧
    (∀ records : List Record, List.Sorted tsLe (records.insertionSort tsLe)) ∧
    (∀ records : List Record, exportRows records = (records.insertionSort tsLe).map csvRow) ∧
    exportToCsv [r5B, r5A] =
      "Horário,Turno,Temperatura (°C),Temp OK,Umidade (%),Umidade OK,Observações\n" ++
      "2026-10-05 08:00:00,Manhã,22,true,55,true,\"He said \"\"hi\"\"\"\n" ++
      "2026-10-05 14:00:00,Tarde,30.5,false,40,true,\"\"" := by
  refine ⟨?_, ?_, ?_, fun _ => rfl, ?_⟩
  · intro records
    rw [exportRows, List.length_map]
    exact (List.perm_insertionSort tsLe records).length_eq
  · intro records
    exact List.perm_insertionSort tsLe records
  · intro records
    exact List.sorted_insertionSort tsLe records
  · decide

/-- C6: the chart sorts by the dd/MM label string, so with one reading of
2026-09-30 and one of 2026-10-01 the point labelled 01/10 comes first even
though its reading is chronologically later. -/
theorem claim6_chart_order_month_boundary :
    chartData [c6Sep30, c6Oct1] =
      [{ date := "01/10", temperatura := 25, umidade := 60 },
       { date := "30/09", temperatura := 20, umidade := 50 }] ∧
    c6Sep30.timestamp.key < c6Oct1.timestamp.key := by
  constructor
  · have hg : groupByDay [c6Sep30, c6Oct1] =
        [(⟨2026, 9, 30⟩, ([20], [50])), (⟨2026, 10, 1⟩, ([25], [60]))] := by
      decide
    have ht1 : jsRound10 (mean [(20 : ℚ)]) = 20 := by norm_num [mean, jsRound10]
    have hh1 : jsRound10 (mean [(50 : ℚ)]) = 50 := by norm_num [mean, jsRound10]
    have ht2 : jsRound10 (mean [(25 : ℚ)]) = 25 := by norm_num [mean, jsRound10]
    have hh2 : jsRound10 (mean [(60 : ℚ)]) = 60 := by norm_num [mean, jsRound10]
    rw [chartData, if_neg (by decide), hg]
    simp only [List.map_cons, List.map_nil, pointOfGroup]
    rw [ht1, hh1, ht2, hh2]
    decide
  · decide

end TempLog
